/-
Verification of the NSW Weather Accuracy Tracker scripts.

Shallow embedding of the three Python source files:
  scripts/config.py                      (regions, thresholds)
  scripts/collect_forecast.py            (fetch_forecast, main)
  scripts/collect_actual_and_compare.py  (fetch_actual, compute_accuracy,
                                          rebuild_summary, main)

Modelling conventions:
  * Python floats are modelled as exact rationals.  The built-in round
    (ties to even on the exact decimal value) is modelled by pyRound /
    roundTo; binary floating point representation error is out of scope.
  * math.sqrt is abstracted as a parameter sqrtQ over the rationals; every
    theorem below is universally quantified over it, so nothing depends on
    a particular square-root implementation.
  * Python exceptions are modelled with Except PyError.
  * JSON documents are modelled by records holding exactly the fields the
    scripts read or write.
-/
import Mathlib

/-! ### Python rounding

`pyRound q` models Python `round(q)` on an exactly represented value:
round half to even. `roundTo p q` models `round(q, p)`. -/

/-- Python `round` on an exact rational: nearest integer, ties to even. -/
def pyRound (q : ℚ) : ℤ :=
  if q - ⌊q⌋ < 1/2 then ⌊q⌋
  else if 1/2 < q - ⌊q⌋ then ⌊q⌋ + 1
  else if ⌊q⌋ % 2 = 0 then ⌊q⌋ else ⌊q⌋ + 1

/-- Python `round(q, p)` on an exact rational. -/
def roundTo (p : ℕ) (q : ℚ) : ℚ := (pyRound (q * 10 ^ p) : ℚ) / 10 ^ p

/-! ### Data model (config.py and the record shapes)

The five metric keys of METRICS in collect_actual_and_compare.py. -/

/-- The five metric keys (METRICS in collect_actual_and_compare.py). -/
inductive Metric : Type
  | high_temp
  | low_temp
  | wind_speed
  | humidity
  | rain
deriving DecidableEq, Repr

/-- METRICS = ["high_temp", "low_temp", "wind_speed", "humidity", "rain"]. -/
def METRICS : List Metric :=
  [.high_temp, .low_temp, .wind_speed, .humidity, .rain]

/-- One entry of the THRESHOLDS table in config.py. -/
structure Thresholds where
  exact : ℚ
  near : ℚ
  wide : ℚ
  unit : String
deriving DecidableEq, Repr

/-- THRESHOLDS from config.py. -/
def THRESHOLDS : Metric → Thresholds
  | .high_temp => { exact := 0, near := 2, wide := 4, unit := "°C" }
  | .low_temp => { exact := 0, near := 2, wide := 4, unit := "°C" }
  | .wind_speed => { exact := 0, near := 1, wide := 10, unit := "km/h" }
  | .humidity => { exact := 0, near := 5, wide := 10, unit := "%" }
  | .rain => { exact := 0, near := 1, wide := 5, unit := "mm" }

/-- A region of NSW_REGIONS in config.py. -/
structure Region where
  name : String
  lat : ℚ
  lon : ℚ
deriving DecidableEq, Repr

/-- NSW_REGIONS from config.py (20 regions). -/
def NSW_REGIONS : List Region :=
  [ { name := "Sydney", lat := -33.87, lon := 151.21 }
  , { name := "Newcastle", lat := -32.93, lon := 151.78 }
  , { name := "Wollongong", lat := -34.42, lon := 150.89 }
  , { name := "Central Coast", lat := -33.43, lon := 151.34 }
  , { name := "Blue Mountains", lat := -33.72, lon := 150.31 }
  , { name := "Penrith", lat := -33.75, lon := 150.69 }
  , { name := "Broken Hill", lat := -31.95, lon := 141.45 }
  , { name := "Dubbo", lat := -32.24, lon := 148.60 }
  , { name := "Tamworth", lat := -31.09, lon := 150.93 }
  , { name := "Coffs Harbour", lat := -30.30, lon := 153.11 }
  , { name := "Lismore", lat := -28.81, lon := 153.28 }
  , { name := "Wagga Wagga", lat := -35.12, lon := 147.37 }
  , { name := "Albury", lat := -36.08, lon := 146.92 }
  , { name := "Orange", lat := -33.28, lon := 149.10 }
  , { name := "Bathurst", lat := -33.42, lon := 149.58 }
  , { name := "Griffith", lat := -34.29, lon := 146.04 }
  , { name := "Armidale", lat := -30.51, lon := 151.67 }
  , { name := "Port Macquarie", lat := -31.43, lon := 152.91 }
  , { name := "Nowra", lat := -34.88, lon := 150.60 }
  , { name := "Moree", lat := -29.46, lon := 149.85 } ]

/-- The per-region record returned by fetch_forecast / fetch_actual:
region name, coordinates, date, and one optional value per metric key
(None in Python is modelled by Option.none). -/
structure ObsRecord where
  region : String
  lat : ℚ := 0
  lon : ℚ := 0
  date : String := ""
  val : Metric → Option ℚ

/-! ### Accuracy Engine (compute_accuracy, lines 85-167) -/

/-- One entry of the per-region metrics mapping built at lines 101-119. -/
structure MetricComparison where
  forecast : Option ℚ
  actual : Option ℚ
  diff : Option ℚ
deriving DecidableEq, Repr

/-- One entry of the comparisons list (region_comp at lines 99-121). -/
structure RegionComparison where
  region : String
  metrics : Metric → MetricComparison

/-- One non-null per-metric summary (lines 141-151). -/
structure MetricSummary where
  exact_pct : ℚ
  near_pct : ℚ
  near_threshold : ℚ
  wide_pct : ℚ
  wide_threshold : ℚ
  mean_diff : ℚ
  std_dev : ℚ
  unit : String
  sample_size : ℕ
deriving DecidableEq, Repr

/-- The value returned by compute_accuracy (lines 162-167). -/
structure AccuracyResult where
  summary : Metric → Option MetricSummary
  overall_score : ℚ
  avg_std_dev : ℚ
  comparisons : List RegionComparison

/-- Line 88: actual_by_name = a dict comprehension keyed by region name,
with a later record overwriting an earlier one under the same key, then
looked up with .get (None when the key is absent). -/
def actualByName (acts : List ObsRecord) : String → Option ObsRecord :=
  acts.foldl (fun d a => fun n => if n = a.region then some a else d n) (fun _ => none)

/-- Lines 102-119: the per-metric comparison cell.  When either side is
None the diff is None and both sides are kept as given; otherwise the
diff is the absolute difference rounded to 2 decimals. -/
def compareMetric (fcv actv : Option ℚ) : MetricComparison :=
  match fcv, actv with
  | some f, some a => { forecast := some f, actual := some a, diff := some (roundTo 2 |f - a|) }
  | f, a => { forecast := f, actual := a, diff := none }

/-- The diff appended to the diff list of the metric at line 114
(only when both sides are present). -/
def diffVal (fcv actv : Option ℚ) : Option ℚ :=
  match fcv, actv with
  | some f, some a => some (roundTo 2 |f - a|)
  | _, _ => none

/-- Lines 93-97: the matched (forecast, actual) pairs, in forecast order;
a forecast region absent from the actual lookup is skipped. -/
def matchedPairs (fcs acts : List ObsRecord) : List (ObsRecord × ObsRecord) :=
  fcs.filterMap fun fc => (actualByName acts fc.region).map fun act => (fc, act)

/-- Lines 99-121: the comparisons list, one entry per matched pair. -/
def regionComparisons (fcs acts : List ObsRecord) : List RegionComparison :=
  (matchedPairs fcs acts).map fun p =>
    { region := p.1.region, metrics := fun m => compareMetric (p.1.val m) (p.2.val m) }

/-- Lines 91 and 114: the global diff list of one metric, in the order the
loop appends (forecast order restricted to matched pairs). -/
def metricDiffs (fcs acts : List ObsRecord) (m : Metric) : List ℚ :=
  (matchedPairs fcs acts).filterMap fun p => diffVal (p.1.val m) (p.2.val m)

/-- Lines 125-151: the per-metric summary built from its diff list; None
when the diff list is empty (line 127).  sqrtQ abstracts math.sqrt. -/
def metricSummary (sqrtQ : ℚ → ℚ) (m : Metric) (vals : List ℚ) : Option MetricSummary :=
  if vals.isEmpty then none
  else
    let t := THRESHOLDS m
    let n : ℕ := vals.length
    let exact_count : ℕ := (vals.filter fun v => v ≤ 1/2).length
    let near_count : ℕ := (vals.filter fun v => v ≤ t.near).length
    let wide_count : ℕ := (vals.filter fun v => v ≤ t.wide).length
    let mean_diff : ℚ := vals.sum / n
    let std_dev : ℚ := if 1 < n then sqrtQ ((vals.map fun v => (v - mean_diff) ^ 2).sum / n) else 0
    some
      { exact_pct := roundTo 1 ((exact_count : ℚ) / n * 100)
      , near_pct := roundTo 1 ((near_count : ℚ) / n * 100)
      , near_threshold := t.near
      , wide_pct := roundTo 1 ((wide_count : ℚ) / n * 100)
      , wide_threshold := t.wide
      , mean_diff := roundTo 2 mean_diff
      , std_dev := roundTo 2 std_dev
      , unit := t.unit
      , sample_size := n }

/-- compute_accuracy (lines 85-167).  sqrtQ abstracts math.sqrt; summaries
are read back in the fixed METRICS insertion order at lines 154-160. -/
def compute_accuracy (sqrtQ : ℚ → ℚ) (fcs acts : List ObsRecord) : AccuracyResult :=
  let summary : Metric → Option MetricSummary :=
    fun m => metricSummary sqrtQ m (metricDiffs fcs acts m)
  let valid : List MetricSummary := METRICS.filterMap summary
  { summary := summary
  , overall_score :=
      if valid.isEmpty then 0
      else roundTo 1 ((valid.map MetricSummary.wide_pct).sum / valid.length)
  , avg_std_dev :=
      roundTo 2 (if valid.isEmpty then 0 else (valid.map MetricSummary.std_dev).sum / valid.length)
  , comparisons := regionComparisons fcs acts }

/-! ### Observation Fetcher (fetch_forecast, fetch_actual)

The provider response is modelled by the parts of the parsed JSON body the
two fetchers read: the daily date array, one optional array per requested
daily variable (a missing key is Option.none on the whole array, matching
dict.get with the [None] default), the hourly time array and the optional
hourly humidity array.  A Python exception escaping the fetcher is
modelled by Except.error. -/

/-- The Python exceptions the fetchers can raise. -/
inductive PyError : Type
  | typeError
  | indexError
  | valueError
deriving DecidableEq, Repr

/-- The parts of the provider JSON body read by the fetchers. -/
structure ProviderResponse where
  dailyTime : List String := []
  dailyTempMax : Option (List (Option ℚ)) := none
  dailyTempMin : Option (List (Option ℚ)) := none
  dailyWind : Option (List (Option ℚ)) := none
  dailyRain : Option (List (Option ℚ)) := none
  hourlyTime : List String := []
  hourlyHumidity : Option (List (Option ℚ)) := none

/-- Python list indexing arr[i]: IndexError when out of range. -/
def pyIndex (xs : List (Option ℚ)) (i : ℕ) : Except PyError (Option ℚ) :=
  match xs[i]? with
  | some v => .ok v
  | none => .error .indexError

/-- daily.get(key, [None])[i] (collect_forecast.py line 52 and friends,
collect_actual_and_compare.py lines 77-81). -/
def dailyGet (arr : Option (List (Option ℚ))) (i : ℕ) : Except PyError (Option ℚ) :=
  pyIndex (arr.getD [none]) i

/-- Python sum over a list that may hold None: TypeError on any None. -/
def pySum (xs : List (Option ℚ)) : Except PyError ℚ :=
  if xs.all Option.isSome then .ok (xs.filterMap id).sum else .error .typeError

/-- fetch_forecast (collect_forecast.py lines 21-57) applied to an
already-parsed provider response.  The humidity average is computed
before the record literal, then the four daily metrics are read at
index 0; this is the Python evaluation order, so the first failing
step decides which exception escapes. -/
def fetch_forecast (region : Region) (target_date : String) (resp : ProviderResponse) :
    Except PyError ObsRecord := do
  let humidity_values := resp.hourlyHumidity.getD []
  let avg_humidity : Option ℚ ←
    if humidity_values.isEmpty then pure none
    else do
      let s ← pySum humidity_values
      pure (some (roundTo 1 (s / humidity_values.length)))
  let ht ← dailyGet resp.dailyTempMax 0
  let lt ← dailyGet resp.dailyTempMin 0
  let ws ← dailyGet resp.dailyWind 0
  let rn ← dailyGet resp.dailyRain 0
  pure
    { region := region.name, lat := region.lat, lon := region.lon, date := target_date
    , val := fun m => match m with
        | .high_temp => ht
        | .low_temp => lt
        | .wind_speed => ws
        | .humidity => avg_humidity
        | .rain => rn }

/-- Code-point prefix test, as the Python str.startswith call at line 67
of collect_actual_and_compare.py. -/
def strStartsWith (s t : String) : Bool :=
  go s.data t.data
where
  /-- Prefix test on the underlying character lists. -/
  go : List Char → List Char → Bool
  | _, [] => true
  | [], _ :: _ => false
  | x :: xs, y :: ys => x == y && go xs ys

/-- Lines 63-68 of collect_actual_and_compare.py: the hourly humidity
values kept for the target date - timestamp starts with the date, index
in range of the humidity array, value not None. -/
def dayHumidity (resp : ProviderResponse) (target_date : String) : List ℚ :=
  let humidity_values := resp.hourlyHumidity.getD []
  resp.hourlyTime.enum.filterMap fun p =>
    if strStartsWith p.2 target_date then (humidity_values[p.1]?).bind id else none

/-- fetch_actual (collect_actual_and_compare.py lines 26-82) applied to an
already-parsed provider response.  The target date is located inside the
daily date array (ValueError when absent), the hourly humidity is
filtered to the target date, and the daily metrics are read at the
located index. -/
def fetch_actual (region : Region) (target_date : String) (resp : ProviderResponse) :
    Except PyError ObsRecord :=
  match resp.dailyTime.findIdx? (· = target_date) with
  | none => .error .valueError
  | some idx => do
  let day_humidity := dayHumidity resp target_date
  let avg_humidity : Option ℚ :=
    if day_humidity.isEmpty then none
    else some (roundTo 1 (day_humidity.sum / day_humidity.length))
  let ht ← dailyGet resp.dailyTempMax idx
  let lt ← dailyGet resp.dailyTempMin idx
  let ws ← dailyGet resp.dailyWind idx
  let rn ← dailyGet resp.dailyRain idx
  pure
    { region := region.name, lat := region.lat, lon := region.lon, date := target_date
    , val := fun m => match m with
        | .high_temp => ht
        | .low_temp => lt
        | .wind_speed => ws
        | .humidity => avg_humidity
        | .rain => rn }

/-! ### Phase 1 run (collect_forecast.py main, lines 60-100)

The per-region network fetch is abstracted by an oracle giving, for each
region, either the record fetch_forecast produced or none when it raised
(the exception is caught at line 75 and the region skipped). -/

/-- The observable outcome of the phase 1 run: the process exit status,
and the region_count and regions fields of the persisted document
(the document is written before the exit status is computed). -/
structure ForecastRunOutput where
  exit : ℕ
  region_count : ℕ
  regions : List ObsRecord

/-- main of collect_forecast.py: collect per-region records in catalog
order, persist them all, and exit 0 exactly when every catalog region was
collected (line 100). -/
def collectForecastMain (catalog : List Region) (fetch : Region → Option ObsRecord) :
    ForecastRunOutput :=
  let forecasts := catalog.filterMap fetch
  { exit := if forecasts.length = catalog.length then 0 else 1
  , region_count := forecasts.length
  , regions := forecasts }

/-! ### Result Store / Summary Builder (rebuild_summary, lines 170-200)

Python compares str values by code points; strLe is that order.  Python
list.sort / sorted are stable sorts, and every stable sort with respect
to the same total preorder computes the same function, so they are
modelled by List.insertionSort (a stable sort). -/

/-- Code-point lexicographic string order, as Python str comparison. -/
def strLe (a b : String) : Bool :=
  go a.data b.data
where
  /-- Lexicographic order on the underlying character lists. -/
  go : List Char → List Char → Bool
  | [], _ => true
  | _ :: _, [] => false
  | x :: xs, y :: ys =>
    if x.toNat < y.toNat then true
    else if y.toNat < x.toNat then false
    else go xs ys

/-- Code-point suffix test, as Python str.endswith. -/
def strEndsWith (s t : String) : Bool :=
  go s.data.reverse t.data.reverse
where
  /-- Prefix test on the already reversed character lists. -/
  go : List Char → List Char → Bool
  | _, [] => true
  | [], _ :: _ => false
  | x :: xs, y :: ys => x == y && go xs ys

/-- The fields rebuild_summary reads from one persisted result document
(lines 180-185): result["date"] and the three parts of
result["accuracy"] it projects. -/
structure DayDoc where
  date : String
  overall_score : ℚ
  avg_std_dev : ℚ
  summary : Metric → Option MetricSummary

/-- One entry of the results array of summary.json (lines 180-185). -/
structure FeedEntry where
  date : String
  overall_score : ℚ
  avg_std_dev : ℚ
  summary : Metric → Option MetricSummary

/-- The summary.json document (lines 190-194); last_updated is the clock
value passed in by the caller. -/
structure SummaryFeed where
  last_updated : String
  total_days : ℕ
  results : List FeedEntry

/-- The projection at lines 180-185. -/
def feedEntryOf (d : DayDoc) : FeedEntry :=
  { date := d.date, overall_score := d.overall_score
  , avg_std_dev := d.avg_std_dev, summary := d.summary }

/-- Line 175: keep filenames ending in .json other than summary.json. -/
def keepResultFile (filename : String) : Bool :=
  strEndsWith filename ".json" && filename ≠ "summary.json"

/-- rebuild_summary (lines 170-200) over a directory listing given as
(filename, parsed document) pairs.  sorted(os.listdir(...)) at line 174
is the ascending filename sort; line 188 then sorts the projections by
date descending (stable, reverse=True).  Both Python sorts are stable,
so each is modelled by insertionSort over the matching total preorder. -/
def rebuild_summary (now : String) (dir : List (String × DayDoc)) : SummaryFeed :=
  let files := List.insertionSort (fun p q : String × DayDoc => strLe p.1 q.1)
    (dir.filter fun p => keepResultFile p.1)
  let all_results := files.map fun p => feedEntryOf p.2
  let sorted := List.insertionSort (fun a b : FeedEntry => strLe b.date a.date) all_results
  { last_updated := now, total_days := sorted.length, results := sorted }

/-! ### Phase 2 run (collect_actual_and_compare.py main, lines 203-296) -/

/-- The actuals document written at lines 240-249. -/
structure ActualsDoc where
  date : String
  region_count : ℕ
  regions : List ObsRecord

/-- The result document written at lines 282-290. -/
structure ResultDoc where
  date : String
  forecast_collected_at : Option String
  accuracy : AccuracyResult

/-- The fields of the forecast document main reads (lines 254 and 285). -/
structure ForecastDoc where
  collected_at : Option String
  regions : List ObsRecord

/-- The environment of one phase 2 invocation: the forecast document for
yesterday (none when the file does not exist), an oracle giving each
per-region fetch_actual outcome (none when it raised and the region was
skipped at line 233), the results directory content, and the two clock
readings. -/
structure CompareEnv where
  forecastDoc : Option ForecastDoc
  fetchActual : Region → Option ObsRecord
  resultsDir : List (String × DayDoc)
  yesterday : String
  now : String

/-- The observable outcome of one phase 2 invocation: exit status, whether
the missing-forecast error message was printed, how many per-region
actual fetches were attempted, and the three documents written (none =
not written, so the stored history is untouched). -/
structure CompareRunOutput where
  exit : ℕ
  errorReported : Bool
  actualFetchAttempts : ℕ
  actualsWritten : Option ActualsDoc
  resultWritten : Option ResultDoc
  summaryWritten : Option SummaryFeed

/-- Writing file name in a directory: overwrite or create. -/
def upsertFile (dir : List (String × DayDoc)) (name : String) (d : DayDoc) :
    List (String × DayDoc) :=
  (dir.filter fun p => p.1 ≠ name) ++ [(name, d)]

/-- The projection of a result document to the fields rebuild_summary
reads back from disk. -/
def dayDocOf (r : ResultDoc) : DayDoc :=
  { date := r.date, overall_score := r.accuracy.overall_score
  , avg_std_dev := r.accuracy.avg_std_dev, summary := r.accuracy.summary }

/-- main of collect_actual_and_compare.py (lines 203-296).  When the
forecast document for yesterday is missing it prints an error and exits 1
before collecting anything or writing anything (lines 216-219); otherwise
it collects actuals over the whole catalog, writes the actuals document,
computes accuracy, writes the result document and rebuilds summary.json,
then exits 0. -/
def comparisonMain (sqrtQ : ℚ → ℚ) (env : CompareEnv) : CompareRunOutput :=
  match env.forecastDoc with
  | none =>
    { exit := 1, errorReported := true, actualFetchAttempts := 0
    , actualsWritten := none, resultWritten := none, summaryWritten := none }
  | some fdoc =>
    let actuals := NSW_REGIONS.filterMap env.fetchActual
    let accuracy := compute_accuracy sqrtQ fdoc.regions actuals
    let result : ResultDoc :=
      { date := env.yesterday, forecast_collected_at := fdoc.collected_at
      , accuracy := accuracy }
    let dirAfter := upsertFile env.resultsDir (env.yesterday ++ ".json") (dayDocOf result)
    { exit := 0, errorReported := false, actualFetchAttempts := NSW_REGIONS.length
    , actualsWritten := some
        { date := env.yesterday, region_count := actuals.length, regions := actuals }
    , resultWritten := some result
    , summaryWritten := some (rebuild_summary env.now dirAfter) }

/-! ### Concrete instances used by witnesses and counterexamples -/

/-- A fixed interpretation of math.sqrt for concrete instantiations; the
theorems below hold for every interpretation. -/
def sqrtZero : ℚ → ℚ := fun _ => 0

/-- A forecast record for Sydney carrying only a high temperature. -/
def wFcSydney : ObsRecord :=
  { region := "Sydney", val := fun m => match m with | .high_temp => some 20 | _ => none }

/-- An actual record for Sydney carrying only a high temperature. -/
def wActSydney : ObsRecord :=
  { region := "Sydney", val := fun m => match m with | .high_temp => some (21.3 : ℚ) | _ => none }

/-- The expected high_temp summary of the single Sydney sample. -/
def wSummaryHigh : MetricSummary :=
  { exact_pct := 0, near_pct := 100, near_threshold := 2, wide_pct := 100
  , wide_threshold := 4, mean_diff := 13/10, std_dev := 0, unit := "°C", sample_size := 1 }

/-- A forecast record for Sydney with every metric missing. -/
def wNullFc : ObsRecord := { region := "Sydney", val := fun _ => none }

/-- Two actual records sharing the region name Sydney. -/
def wDupAct1 : ObsRecord := { region := "Sydney", val := fun _ => some 1 }

/-- Second of the two duplicate Sydney actual records. -/
def wDupAct2 : ObsRecord := { region := "Sydney", val := fun _ => some 2 }

/-- The Sydney entry of the region catalog. -/
def regionSydney : Region := { name := "Sydney", lat := -33.87, lon := 151.21 }

/-- A response whose hourly humidity array holds a null entry. -/
def respNullHourly : ProviderResponse := { hourlyHumidity := some [some 50, none] }

/-- A response whose daily arrays are shorter than the target index:
the target date sits at daily index 2 but only one daily metric array
reaches that far. -/
def respShortDaily : ProviderResponse :=
  { dailyTime := ["2024-01-01", "2024-01-02", "2024-01-03"]
  , dailyTempMax := some [some 1, some 2, some 3] }

/-- A response with every daily metric key and the hourly arrays missing. -/
def respAllMissing : ProviderResponse := {}

/-- A tolerant actual-mode response: target date at daily index 0, a null
daily entry, a missing daily key, and hourly data spanning two days with
a null entry. -/
def respActualEx : ProviderResponse :=
  { dailyTime := ["2024-01-02"]
  , dailyTempMax := some [none]
  , dailyTempMin := some [some 5]
  , dailyRain := some [some 0]
  , hourlyTime := ["2024-01-02T00:00", "2024-01-01T05:00", "2024-01-02T01:00"]
  , hourlyHumidity := some [some 50, some 99, none] }

/-- A fetch oracle that fails for exactly 3 of the 20 catalog regions. -/
def wFetchDrop3 : Region → Option ObsRecord := fun r =>
  if r.name = "Sydney" ∨ r.name = "Newcastle" ∨ r.name = "Wollongong" then none
  else some { region := r.name, val := fun _ => none }

/-- A result document carrying only a date, used by the feed example. -/
def exDoc (d : String) : DayDoc :=
  { date := d, overall_score := 0, avg_std_dev := 0, summary := fun _ => none }

/-- A results directory holding documents for three dates out of order. -/
def exDir : List (String × DayDoc) :=
  [ ("2024-01-01.json", exDoc "2024-01-01")
  , ("2024-01-03.json", exDoc "2024-01-03")
  , ("2024-01-02.json", exDoc "2024-01-02") ]

/-- A phase 2 environment with the forecast document missing. -/
def envNoForecast : CompareEnv :=
  { forecastDoc := none, fetchActual := fun _ => none, resultsDir := []
  , yesterday := "2024-01-01", now := "t" }

/-! ### Supporting lemmas -/

theorem pyRound_mono {q r : ℚ} (h : q ≤ r) : pyRound q ≤ pyRound r := by
  have hf : ⌊q⌋ ≤ ⌊r⌋ := Int.floor_le_floor h
  unfold pyRound
  rcases lt_or_eq_of_le hf with hlt | heq
  · split_ifs <;> omega
  · have hc : ((⌊q⌋ : ℚ)) = (⌊r⌋ : ℚ) := by rw [heq]
    have hfr : q - ⌊q⌋ ≤ r - ⌊r⌋ := by rw [← hc]; linarith
    split_ifs with h1 h2 h3 h4 h5 h6 h7 h8 h9 <;>
      first
        | omega
        | (exfalso; linarith)

theorem roundTo_mono (p : ℕ) {q r : ℚ} (h : q ≤ r) : roundTo p q ≤ roundTo p r := by
  unfold roundTo
  have h10 : (0:ℚ) < 10 ^ p := by positivity
  have hm : q * 10 ^ p ≤ r * 10 ^ p := by nlinarith
  have := pyRound_mono hm
  have hcast : ((pyRound (q * 10 ^ p) : ℚ)) ≤ (pyRound (r * 10 ^ p) : ℚ) := by exact_mod_cast this
  gcongr

theorem mem_METRICS (m : Metric) : m ∈ METRICS := by cases m <;> simp [METRICS]

/-- The dict lookup returns the last record carrying the requested name. -/
theorem actualByName_eq_getLast (acts : List ObsRecord) (name : String) :
    actualByName acts name = (acts.filter fun a => a.region = name).getLast? := by
  induction acts using List.reverseRecOn with
  | nil => rfl
  | append_singleton as a ih =>
    unfold actualByName
    rw [List.foldl_append]
    show (if name = a.region then some a else actualByName as name) = _
    rw [List.filter_append]
    by_cases hc : a.region = name
    · rw [if_pos hc.symm]
      simp [hc, List.getLast?_concat]
    · rw [if_neg fun h => hc h.symm]
      simp [hc, ih]

theorem strLe_go_total (xs ys : List Char) : strLe.go xs ys = true ∨ strLe.go ys xs = true := by
  induction xs generalizing ys with
  | nil => left; rfl
  | cons x xs ih =>
    cases ys with
    | nil => right; rfl
    | cons y ys =>
      simp only [strLe.go]
      rcases Nat.lt_trichotomy x.toNat y.toNat with h | h | h
      · left; simp [h]
      · have h1 : ¬ x.toNat < y.toNat := by omega
        have h2 : ¬ y.toNat < x.toNat := by omega
        simpa [h1, h2] using ih ys
      · right; simp [h]

theorem strLe_total (a b : String) : strLe a b = true ∨ strLe b a = true :=
  strLe_go_total a.data b.data

theorem strLe_go_trans (xs ys zs : List Char) (h1 : strLe.go xs ys = true)
    (h2 : strLe.go ys zs = true) : strLe.go xs zs = true := by
  induction xs generalizing ys zs with
  | nil => rfl
  | cons x xs ih =>
    cases ys with
    | nil => simp [strLe.go] at h1
    | cons y ys =>
      cases zs with
      | nil => simp [strLe.go] at h2
      | cons z zs =>
        simp only [strLe.go] at h1 h2 ⊢
        by_cases hxy : x.toNat < y.toNat
        · by_cases hyz : y.toNat < z.toNat
          · have hxz : x.toNat < z.toNat := by omega
            simp [hxz]
          · by_cases hzy : z.toNat < y.toNat
            · simp [hyz, hzy] at h2
            · have hxz : x.toNat < z.toNat := by omega
              simp [hxz]
        · by_cases hyx : y.toNat < x.toNat
          · simp [hxy, hyx] at h1
          · by_cases hyz : y.toNat < z.toNat
            · have hxz : x.toNat < z.toNat := by omega
              simp [hxz]
            · by_cases hzy : z.toNat < y.toNat
              · simp [hyz, hzy] at h2
              · have hn1 : ¬ x.toNat < z.toNat := by omega
                have hn2 : ¬ z.toNat < x.toNat := by omega
                simp only [hxy, hyx, if_neg, if_false] at h1
                simp only [hyz, hzy, if_neg, if_false] at h2
                simp only [hn1, hn2, if_neg, if_false]
                exact ih ys zs h1 h2

theorem strLe_trans (a b c : String) (h1 : strLe a b = true) (h2 : strLe b c = true) :
    strLe a c = true :=
  strLe_go_trans a.data b.data c.data h1 h2

theorem pyRound_intCast (z : ℤ) : pyRound (z : ℚ) = z := by
  unfold pyRound
  simp [Int.floor_intCast]

theorem roundTo_eval (p : ℕ) (q : ℚ) (z : ℤ) (h : q * 10 ^ p = (z : ℚ)) :
    roundTo p q = (z : ℚ) / 10 ^ p := by
  unfold roundTo
  rw [h, pyRound_intCast]

theorem metricSummary_eq_none (sqrtQ : ℚ → ℚ) (m : Metric) (vals : List ℚ) :
    metricSummary sqrtQ m vals = none ↔ vals = [] := by
  unfold metricSummary
  by_cases h : vals.isEmpty
  · simp [h, List.isEmpty_iff.mp h]
  · have hne : vals ≠ [] := fun hh => h (by simp [hh])
    simp [h, hne]

/-! ### The claims -/

/-- C1: for every matched region and metric, a null on either side gives a
MetricComparison with both sides preserved and a null diff while the entry
itself is still emitted, and that sample is excluded from the global diff
list of the metric, leaving the whole metric summary (sample_size,
mean_diff, std_dev and the three percentages) exactly as it would be
without the record. -/
theorem compute_accuracy_null_propagation (sqrtQ : ℚ → ℚ)
    (fcs₁ fcs₂ acts : List ObsRecord) (fc act : ObsRecord) (m : Metric)
    (hact : actualByName acts fc.region = some act)
    (hnull : fc.val m = none ∨ act.val m = none) :
    compareMetric (fc.val m) (act.val m)
        = { forecast := fc.val m, actual := act.val m, diff := none }
      ∧ (compute_accuracy sqrtQ (fcs₁ ++ fc :: fcs₂) acts).comparisons
          = (compute_accuracy sqrtQ fcs₁ acts).comparisons
            ++ ({ region := fc.region
                , metrics := fun mm => compareMetric (fc.val mm) (act.val mm) } : RegionComparison)
              :: (compute_accuracy sqrtQ fcs₂ acts).comparisons
      ∧ metricDiffs (fcs₁ ++ fc :: fcs₂) acts m = metricDiffs (fcs₁ ++ fcs₂) acts m
      ∧ (compute_accuracy sqrtQ (fcs₁ ++ fc :: fcs₂) acts).summary m
          = (compute_accuracy sqrtQ (fcs₁ ++ fcs₂) acts).summary m := by
  have hdv : diffVal (fc.val m) (act.val m) = none := by
    rcases hnull with h | h
    · simp [diffVal, h]
    · cases hf : fc.val m <;> simp [diffVal, h]
  have hcm : compareMetric (fc.val m) (act.val m)
      = { forecast := fc.val m, actual := act.val m, diff := none } := by
    rcases hnull with h | h
    · simp [compareMetric, h]
    · cases hf : fc.val m <;> simp [compareMetric, h]
  have hdiffs : metricDiffs (fcs₁ ++ fc :: fcs₂) acts m
      = metricDiffs (fcs₁ ++ fcs₂) acts m := by
    simp only [metricDiffs, matchedPairs, List.filterMap_append]
    congr 1
    simp only [show fc :: fcs₂ = [fc] ++ fcs₂ from rfl, List.filterMap_append]
    simp [List.filterMap_cons, hact, hdv]
  refine ⟨hcm, ?_, hdiffs, ?_⟩
  · simp only [compute_accuracy]
    simp only [regionComparisons, matchedPairs, List.filterMap_append, List.map_append]
    congr 1
    simp [List.filterMap_cons, hact]
  · simp only [compute_accuracy]
    rw [hdiffs]

theorem compute_accuracy_null_propagation_witness :
    (compute_accuracy sqrtZero ([] ++ wNullFc :: []) [wActSydney]).summary .high_temp
      = (compute_accuracy sqrtZero ([] ++ []) [wActSydney]).summary .high_temp :=
  (compute_accuracy_null_propagation sqrtZero [] [] [wActSydney] wNullFc wActSydney .high_temp
    (by simp [actualByName, wNullFc, wActSydney]) (Or.inl rfl)).2.2.2

/-- C2: compute_accuracy emits exactly one RegionComparison per forecast
record whose region name matches the name of some actual record, keeping
the forecast order; unmatched forecast regions are skipped and unmatched
actual regions produce nothing, so forecast regions A, B against actual
regions B, C compare exactly B. -/
theorem compute_accuracy_matching_by_name (sqrtQ : ℚ → ℚ) (fcs acts : List ObsRecord) :
    ((compute_accuracy sqrtQ fcs acts).comparisons.map RegionComparison.region
        = (fcs.filter fun fc => (actualByName acts fc.region).isSome).map ObsRecord.region)
      ∧ (∀ name : String, (actualByName acts name).isSome ↔ ∃ a ∈ acts, a.region = name)
      ∧ ((compute_accuracy sqrtQ
            [{ region := "A", val := fun _ => none }, { region := "B", val := fun _ => none }]
            [{ region := "B", val := fun _ => none }, { region := "C", val := fun _ => none }]
          ).comparisons.map RegionComparison.region = ["B"]) := by
  refine ⟨?_, ?_, ?_⟩
  · show (regionComparisons fcs acts).map RegionComparison.region = _
    induction fcs with
    | nil => rfl
    | cons fc l ih =>
      simp only [regionComparisons, matchedPairs, List.filterMap_cons, List.filter_cons] at *
      cases h : actualByName acts fc.region with
      | none => simpa [h] using ih
      | some act => simpa [h] using ih
  · intro name
    rw [actualByName_eq_getLast, List.getLast?_isSome, Ne, List.filter_eq_nil_iff]
    push_neg
    simp
  · simp [compute_accuracy, regionComparisons, matchedPairs, actualByName,
      List.filterMap, List.foldl]

theorem compute_accuracy_matching_by_name_witness :
    (compute_accuracy sqrtZero
        [{ region := "A", val := fun _ => none }, { region := "B", val := fun _ => none }]
        [{ region := "B", val := fun _ => none }, { region := "C", val := fun _ => none }]
      ).comparisons.map RegionComparison.region = ["B"] :=
  (compute_accuracy_matching_by_name sqrtZero [] []).2.2

/-- C3: exact_pct counts diffs at or below the fixed constant 0.5, not the
configured exact threshold field (which stays 0 and unused): one Sydney
region with forecast high 20.0 and actual 21.3 gives diff 1.3 and a
summary with exact_pct 0, near_pct 100 at threshold 2, wide_pct 100 at
threshold 4, mean_diff 1.3, std_dev 0 and sample_size 1; a diff of 0.4,
above the configured exact field 0 but at most 0.5, still counts as
exact. -/
theorem compute_accuracy_exact_cutoff_example (sqrtQ : ℚ → ℚ) :
    (compute_accuracy sqrtQ [wFcSydney] [wActSydney]).summary .high_temp = some wSummaryHigh
      ∧ ((compute_accuracy sqrtQ [wFcSydney] [wActSydney]).comparisons.map
          fun c => (c.metrics .high_temp).diff) = [some (13/10 : ℚ)]
      ∧ (THRESHOLDS .high_temp).exact = 0
      ∧ (metricSummary sqrtQ .high_temp [0.4]).map MetricSummary.exact_pct = some 100 := by
  have hd : roundTo 2 |(13/10:ℚ)| = 13/10 := by
    rw [show |(13/10:ℚ)| = 13/10 by norm_num, roundTo_eval 2 _ 130 (by norm_num)]
    norm_num
  have h2 : roundTo 2 (13/10:ℚ) = 13/10 := by
    rw [roundTo_eval 2 _ 130 (by norm_num)]; norm_num
  have h3 : roundTo 1 (0:ℚ) = 0 := by
    rw [roundTo_eval 1 _ 0 (by norm_num)]; norm_num
  have h4 : roundTo 1 (100:ℚ) = 100 := by
    rw [roundTo_eval 1 _ 1000 (by norm_num)]; norm_num
  have h5 : roundTo 2 (0:ℚ) = 0 := by
    rw [roundTo_eval 2 _ 0 (by norm_num)]; norm_num
  refine ⟨?_, ?_, rfl, ?_⟩
  · simp only [compute_accuracy, metricSummary, metricDiffs, matchedPairs, actualByName,
      diffVal, THRESHOLDS, List.filterMap, List.foldl, wFcSydney, wActSydney, wSummaryHigh]
    norm_num [hd, h2, h3, h4, h5, List.filter]
  · simp only [compute_accuracy, regionComparisons, matchedPairs, actualByName,
      compareMetric, diffVal, List.filterMap, List.foldl, List.map, wFcSydney, wActSydney]
    norm_num [hd]
  · simp only [metricSummary, THRESHOLDS, List.filter, List.isEmpty]
    norm_num [h4, h5, roundTo_eval 2 ((2:ℚ)/5) 40 (by norm_num)]

theorem compute_accuracy_exact_cutoff_example_witness :
    (compute_accuracy sqrtZero [wFcSydney] [wActSydney]).summary .high_temp
      = some wSummaryHigh :=
  (compute_accuracy_exact_cutoff_example sqrtZero).1

/-- C4: whenever 0.5 is at most the near threshold and the near threshold
at most the wide threshold of the metric (true of every configured
metric), every non-null summary produced by compute_accuracy satisfies
exact_pct at most near_pct at most wide_pct. -/
theorem metric_summary_threshold_monotone (sqrtQ : ℚ → ℚ)
    (fcs acts : List ObsRecord) (m : Metric) (s : MetricSummary)
    (h12 : 1/2 ≤ (THRESHOLDS m).near) (hnw : (THRESHOLDS m).near ≤ (THRESHOLDS m).wide)
    (hs : (compute_accuracy sqrtQ fcs acts).summary m = some s) :
    s.exact_pct ≤ s.near_pct ∧ s.near_pct ≤ s.wide_pct := by
  simp only [compute_accuracy] at hs
  set vals := metricDiffs fcs acts m with hvals
  unfold metricSummary at hs
  by_cases he : vals.isEmpty
  · rw [if_pos he] at hs; exact absurd hs (by simp)
  · rw [if_neg he] at hs
    have hsEq := Option.some.inj hs
    have hn : 0 < vals.length := List.length_pos.mpr (by simpa using he)
    have hnq : (0:ℚ) < vals.length := by exact_mod_cast hn
    have h1 : ((vals.filter fun v => v ≤ 1/2).length : ℚ)
        ≤ ((vals.filter fun v => v ≤ (THRESHOLDS m).near).length : ℚ) := by
      have := List.Sublist.length_le (List.monotone_filter_right vals
        (p := fun v => decide (v ≤ 1/2)) (q := fun v => decide (v ≤ (THRESHOLDS m).near))
        (fun a ha => by
          simp only [decide_eq_true_eq] at *
          linarith))
      exact_mod_cast this
    have h2 : ((vals.filter fun v => v ≤ (THRESHOLDS m).near).length : ℚ)
        ≤ ((vals.filter fun v => v ≤ (THRESHOLDS m).wide).length : ℚ) := by
      have := List.Sublist.length_le (List.monotone_filter_right vals
        (p := fun v => decide (v ≤ (THRESHOLDS m).near))
        (q := fun v => decide (v ≤ (THRESHOLDS m).wide))
        (fun a ha => by
          simp only [decide_eq_true_eq] at *
          linarith))
      exact_mod_cast this
    constructor
    · rw [← hsEq]
      dsimp only
      apply roundTo_mono
      gcongr
    · rw [← hsEq]
      dsimp only
      apply roundTo_mono
      gcongr

theorem metric_summary_threshold_monotone_witness :
    (1/2 : ℚ) ≤ (THRESHOLDS .high_temp).near
      ∧ (THRESHOLDS .high_temp).near ≤ (THRESHOLDS .high_temp).wide
      ∧ (wSummaryHigh.exact_pct ≤ wSummaryHigh.near_pct
          ∧ wSummaryHigh.near_pct ≤ wSummaryHigh.wide_pct) := by
  refine ⟨by norm_num [THRESHOLDS], by norm_num [THRESHOLDS], ?_⟩
  apply metric_summary_threshold_monotone sqrtZero [wFcSydney] [wActSydney] .high_temp
    wSummaryHigh (by norm_num [THRESHOLDS]) (by norm_num [THRESHOLDS])
  have hd : roundTo 2 |(13/10:ℚ)| = 13/10 := by
    rw [show |(13/10:ℚ)| = 13/10 by norm_num, roundTo_eval 2 _ 130 (by norm_num)]
    norm_num
  have h2 : roundTo 2 (13/10:ℚ) = 13/10 := by
    rw [roundTo_eval 2 _ 130 (by norm_num)]; norm_num
  have h3 : roundTo 1 (0:ℚ) = 0 := by
    rw [roundTo_eval 1 _ 0 (by norm_num)]; norm_num
  have h4 : roundTo 1 (100:ℚ) = 100 := by
    rw [roundTo_eval 1 _ 1000 (by norm_num)]; norm_num
  have h5 : roundTo 2 (0:ℚ) = 0 := by
    rw [roundTo_eval 2 _ 0 (by norm_num)]; norm_num
  simp only [compute_accuracy, metricSummary, metricDiffs, matchedPairs, actualByName,
    diffVal, THRESHOLDS, List.filterMap, List.foldl, wFcSydney, wActSydney, wSummaryHigh]
  norm_num [hd, h2, h3, h4, h5, List.filter]

/-- C5: a metric summary is null exactly when the diff list of the metric
is empty (never a zero-sample summary); when every metric summary is null
the overall score and the average standard deviation are both 0, and
otherwise they are the mean of wide_pct rounded to 1 decimal and the mean
of std_dev rounded to 2 decimals over the non-null summaries, taken in
the fixed METRICS order. -/
theorem compute_accuracy_empty_and_aggregate (sqrtQ : ℚ → ℚ) (fcs acts : List ObsRecord) :
    (∀ m : Metric,
        (compute_accuracy sqrtQ fcs acts).summary m = none ↔ metricDiffs fcs acts m = [])
      ∧ ((∀ m : Metric, (compute_accuracy sqrtQ fcs acts).summary m = none) →
          (compute_accuracy sqrtQ fcs acts).overall_score = 0
            ∧ (compute_accuracy sqrtQ fcs acts).avg_std_dev = 0)
      ∧ (METRICS.filterMap (compute_accuracy sqrtQ fcs acts).summary ≠ [] →
          (compute_accuracy sqrtQ fcs acts).overall_score
              = roundTo 1 (((METRICS.filterMap (compute_accuracy sqrtQ fcs acts).summary).map
                    MetricSummary.wide_pct).sum
                  / (METRICS.filterMap (compute_accuracy sqrtQ fcs acts).summary).length)
            ∧ (compute_accuracy sqrtQ fcs acts).avg_std_dev
              = roundTo 2 (((METRICS.filterMap (compute_accuracy sqrtQ fcs acts).summary).map
                    MetricSummary.std_dev).sum
                  / (METRICS.filterMap (compute_accuracy sqrtQ fcs acts).summary).length)) := by
  have hr0 : roundTo 2 (0:ℚ) = 0 := by
    rw [roundTo_eval 2 _ 0 (by norm_num)]; norm_num
  refine ⟨?_, ?_, ?_⟩
  · intro m
    show metricSummary sqrtQ m (metricDiffs fcs acts m) = none ↔ _
    exact metricSummary_eq_none sqrtQ m (metricDiffs fcs acts m)
  · intro hall
    have hvalid : METRICS.filterMap (compute_accuracy sqrtQ fcs acts).summary = [] :=
      List.filterMap_eq_nil_iff.mpr fun m _ => hall m
    simp only [compute_accuracy] at hvalid ⊢
    rw [hvalid]
    simp [hr0]
  · intro hne
    simp only [compute_accuracy] at hne ⊢
    have hne' : ¬ (METRICS.filterMap
        fun m => metricSummary sqrtQ m (metricDiffs fcs acts m)).isEmpty = true := by
      simpa using hne
    simp only [if_neg hne']
    refine ⟨?_, ?_⟩ <;> first | rfl | trivial

theorem compute_accuracy_empty_and_aggregate_witness :
    (compute_accuracy sqrtZero ([] : List ObsRecord) []).overall_score = 0
      ∧ (compute_accuracy sqrtZero ([] : List ObsRecord) []).avg_std_dev = 0 :=
  (compute_accuracy_empty_and_aggregate sqrtZero [] []).2.1
    (fun m => ((compute_accuracy_empty_and_aggregate sqrtZero [] []).1 m).mpr rfl)

/-- C6, counterexample: a null entry in the hourly humidity array makes
fetch_forecast raise TypeError, and daily metric arrays shorter than the
located target index make fetch_actual raise IndexError, instead of
producing a record with null metrics. -/
theorem fetch_raises_on_null_and_short :
    fetch_forecast regionSydney "2024-01-01" respNullHourly = .error .typeError
      ∧ fetch_actual regionSydney "2024-01-03" respShortDaily = .error .indexError := by
  constructor <;> rfl

/-- C6, amended: the fetchers tolerate missing daily metric keys and null
entries only as far as indexing allows.  Forecast mode returns a record
whenever every present daily array is nonempty and the hourly humidity
array holds no null (each metric is the index 0 entry of its array, with
the [None] default for a missing key, and humidity is null exactly when
the hourly array is empty).  Actual mode returns a record whenever every
daily array reaches the located target index, tolerating hourly arrays of
any length and null hourly entries (each metric is the entry at the
index, and humidity is the rounded mean of the filtered values, null
when none remain). -/
theorem fetch_tolerance_amended :
    (∀ (region : Region) (d : String) (resp : ProviderResponse),
        (∀ v ∈ resp.hourlyHumidity.getD [], v.isSome) →
        ∀ (h1 : resp.dailyTempMax.getD [none] ≠ [])
          (h2 : resp.dailyTempMin.getD [none] ≠ [])
          (h3 : resp.dailyWind.getD [none] ≠ [])
          (h4 : resp.dailyRain.getD [none] ≠ []),
        ∃ rec : ObsRecord, fetch_forecast region d resp = .ok rec
          ∧ rec.region = region.name
          ∧ (resp.hourlyHumidity.getD [] = [] → rec.val .humidity = none)
          ∧ rec.val .high_temp = (resp.dailyTempMax.getD [none]).head h1
          ∧ rec.val .low_temp = (resp.dailyTempMin.getD [none]).head h2
          ∧ rec.val .wind_speed = (resp.dailyWind.getD [none]).head h3
          ∧ rec.val .rain = (resp.dailyRain.getD [none]).head h4)
      ∧ (∀ (region : Region) (d : String) (resp : ProviderResponse) (idx : ℕ),
          resp.dailyTime.findIdx? (· = d) = some idx →
          ∀ (h1 : idx < (resp.dailyTempMax.getD [none]).length)
            (h2 : idx < (resp.dailyTempMin.getD [none]).length)
            (h3 : idx < (resp.dailyWind.getD [none]).length)
            (h4 : idx < (resp.dailyRain.getD [none]).length),
          ∃ rec : ObsRecord, fetch_actual region d resp = .ok rec
            ∧ rec.region = region.name
            ∧ (dayHumidity resp d = [] → rec.val .humidity = none)
            ∧ (dayHumidity resp d ≠ [] → rec.val .humidity
                = some (roundTo 1 ((dayHumidity resp d).sum / (dayHumidity resp d).length)))
            ∧ rec.val .high_temp = (resp.dailyTempMax.getD [none]).get ⟨idx, h1⟩
            ∧ rec.val .low_temp = (resp.dailyTempMin.getD [none]).get ⟨idx, h2⟩
            ∧ rec.val .wind_speed = (resp.dailyWind.getD [none]).get ⟨idx, h3⟩
            ∧ rec.val .rain = (resp.dailyRain.getD [none]).get ⟨idx, h4⟩) := by
  constructor
  · intro region d resp hh h1 h2 h3 h4
    have hidx : ∀ (arr : Option (List (Option ℚ))) (hne : arr.getD [none] ≠ []),
        dailyGet arr 0 = .ok ((arr.getD [none]).head hne) := by
      intro arr hne
      unfold dailyGet pyIndex
      rw [show (arr.getD [none])[0]? = some ((arr.getD [none]).head hne) by
        rw [← List.head?_eq_getElem?]
        exact List.head?_eq_head hne]
    unfold fetch_forecast
    by_cases he : (resp.hourlyHumidity.getD []).isEmpty
    · simp only [he, if_pos, pure, Except.pure]
      rw [hidx _ h1, hidx _ h2, hidx _ h3, hidx _ h4]
      exact ⟨_, rfl, rfl, fun _ => rfl, rfl, rfl, rfl, rfl⟩
    · have hsum : pySum (resp.hourlyHumidity.getD []) =
          .ok (((resp.hourlyHumidity.getD []).filterMap id).sum) := by
        unfold pySum
        rw [if_pos (List.all_eq_true.mpr fun v hv => hh v hv)]
      simp only [he, if_neg, Bool.false_eq_true, hsum]
      rw [hidx _ h1, hidx _ h2, hidx _ h3, hidx _ h4]
      refine ⟨_, rfl, rfl, fun hcon => ?_, rfl, rfl, rfl, rfl⟩
      exfalso
      rw [hcon] at he
      exact he rfl
  · intro region d resp idx hfound h1 h2 h3 h4
    have hg : ∀ (arr : Option (List (Option ℚ))) (hlt : idx < (arr.getD [none]).length),
        dailyGet arr idx = .ok ((arr.getD [none]).get ⟨idx, hlt⟩) := by
      intro arr hlt
      unfold dailyGet pyIndex
      rw [show (arr.getD [none])[idx]? = some ((arr.getD [none]).get ⟨idx, hlt⟩) from
        List.getElem?_eq_getElem hlt]
    unfold fetch_actual
    rw [hfound]
    dsimp only
    rw [hg _ h1, hg _ h2, hg _ h3, hg _ h4]
    by_cases he : (dayHumidity resp d).isEmpty
    · simp only [he, if_pos]
      exact ⟨_, rfl, rfl, fun _ => rfl,
        fun hcon => absurd (List.isEmpty_iff.mp he) hcon, rfl, rfl, rfl, rfl⟩
    · simp only [he, Bool.false_eq_true, if_neg]
      refine ⟨_, rfl, rfl, fun hcon => ?_, fun _ => rfl, rfl, rfl, rfl, rfl⟩
      exfalso
      rw [hcon] at he
      exact he rfl

theorem fetch_tolerance_amended_witness :
    (∃ rec : ObsRecord, fetch_forecast regionSydney "2024-01-01" respAllMissing = .ok rec
        ∧ rec.val .humidity = none ∧ rec.val .high_temp = none)
      ∧ (∃ rec : ObsRecord, fetch_actual regionSydney "2024-01-02" respActualEx = .ok rec
        ∧ rec.val .high_temp = none ∧ rec.val .low_temp = some 5
        ∧ rec.val .wind_speed = none ∧ rec.val .humidity = some 50) := by
  constructor
  · obtain ⟨rec, hok, hreg, hhum, hht, hrest⟩ :=
      fetch_tolerance_amended.1 regionSydney "2024-01-01" respAllMissing
        (by simp [respAllMissing]) (by simp [respAllMissing]) (by simp [respAllMissing])
        (by simp [respAllMissing]) (by simp [respAllMissing])
    exact ⟨rec, hok, hhum (by simp [respAllMissing]), by rw [hht]; rfl⟩
  · obtain ⟨rec, hok, hreg, hhum0, hhum1, hht, hlt, hws, hrn⟩ :=
      fetch_tolerance_amended.2 regionSydney "2024-01-02" respActualEx 0
        (by decide) (by simp [respActualEx]) (by simp [respActualEx])
        (by simp [respActualEx]) (by simp [respActualEx])
    refine ⟨rec, hok, by rw [hht]; rfl, by rw [hlt]; rfl, by rw [hws]; rfl, ?_⟩
    have hday : dayHumidity respActualEx "2024-01-02" = [50] := by rfl
    rw [hhum1 (by rw [hday]; simp), hday]
    have hr : roundTo 1 (50:ℚ) = 50 := by
      rw [roundTo_eval 1 _ 500 (by norm_num)]; norm_num
    simp [hr]

/-- C7, counterexample: with fetches failing for exactly 3 of the 20
catalog regions, the run persists the 17 collected records and
region_count 17 but exits 1, not 0. -/
theorem collect_forecast_partial_failure_cex :
    (collectForecastMain NSW_REGIONS wFetchDrop3).region_count = 17
      ∧ (collectForecastMain NSW_REGIONS wFetchDrop3).exit = 1
      ∧ (collectForecastMain NSW_REGIONS wFetchDrop3).exit ≠ 0 := by
  refine ⟨rfl, rfl, ?_⟩
  intro h
  rw [show (collectForecastMain NSW_REGIONS wFetchDrop3).exit = 1 from rfl] at h
  exact Nat.one_ne_zero h

/-- C7, amended: the forecast-collection phase exits 0 exactly when every
catalog region was collected and exits 1 otherwise (so any partial
success exits 1), while the document with all successfully collected
records and their count is persisted either way. -/
theorem collect_forecast_exit_contract (catalog : List Region)
    (fetch : Region → Option ObsRecord) :
    ((collectForecastMain catalog fetch).exit = 0
        ↔ (catalog.filterMap fetch).length = catalog.length)
      ∧ ((collectForecastMain catalog fetch).exit = 0
          ∨ (collectForecastMain catalog fetch).exit = 1)
      ∧ (collectForecastMain catalog fetch).region_count = (catalog.filterMap fetch).length
      ∧ (collectForecastMain catalog fetch).regions = catalog.filterMap fetch := by
  unfold collectForecastMain
  by_cases h : (catalog.filterMap fetch).length = catalog.length <;> simp [h]

theorem collect_forecast_exit_contract_witness :
    (collectForecastMain NSW_REGIONS wFetchDrop3).region_count
      = (NSW_REGIONS.filterMap wFetchDrop3).length :=
  (collect_forecast_exit_contract NSW_REGIONS wFetchDrop3).2.2.1

/-- C8: the rebuilt summary feed has total_days equal to the number of
entries, one entry per kept result document (filenames ending in .json
other than summary.json), sorted by date descending; documents for
2024-01-01, 2024-01-03, 2024-01-02 come out as 03, 02, 01 with
total_days 3. -/
theorem rebuild_summary_feed_order (now : String) (dir : List (String × DayDoc)) :
    (rebuild_summary now dir).total_days = (rebuild_summary now dir).results.length
      ∧ (rebuild_summary now dir).results.length
          = (dir.filter fun p => keepResultFile p.1).length
      ∧ (rebuild_summary now dir).results.Perm
          ((dir.filter fun p => keepResultFile p.1).map fun p => feedEntryOf p.2)
      ∧ List.Pairwise (fun a b : FeedEntry => strLe b.date a.date = true)
          (rebuild_summary now dir).results
      ∧ (rebuild_summary "t" exDir).results.map FeedEntry.date
          = ["2024-01-03", "2024-01-02", "2024-01-01"]
      ∧ (rebuild_summary "t" exDir).total_days = 3 := by
  refine ⟨rfl, ?_, ?_, ?_, by decide, by decide⟩
  · simp only [rebuild_summary]
    rw [List.length_insertionSort, List.length_map, List.length_insertionSort]
  · simp only [rebuild_summary]
    exact (List.perm_insertionSort _ _).trans ((List.perm_insertionSort _ _).map _)
  · simp only [rebuild_summary]
    haveI : IsTotal FeedEntry (fun a b => strLe b.date a.date = true) :=
      ⟨fun a b => (strLe_total b.date a.date).elim Or.inl Or.inr⟩
    haveI : IsTrans FeedEntry (fun a b => strLe b.date a.date = true) :=
      ⟨fun a b c hab hbc => strLe_trans c.date b.date a.date hbc hab⟩
    exact List.sorted_insertionSort _ _

theorem rebuild_summary_feed_order_witness :
    (rebuild_summary "t" exDir).total_days = (rebuild_summary "t" exDir).results.length :=
  (rebuild_summary_feed_order "t" exDir).1

/-- C9: when the forecast document for the target date is missing, the
comparison phase reports the error and exits 1 without attempting any
per-region actual fetch and without writing the actuals document, the
result document or the summary feed, leaving the stored history
untouched. -/
theorem comparison_missing_forecast_fatal (sqrtQ : ℚ → ℚ) (env : CompareEnv)
    (h : env.forecastDoc = none) :
    comparisonMain sqrtQ env
      = { exit := 1, errorReported := true, actualFetchAttempts := 0
        , actualsWritten := none, resultWritten := none, summaryWritten := none } := by
  unfold comparisonMain
  rw [h]

theorem comparison_missing_forecast_fatal_witness :
    comparisonMain sqrtZero envNoForecast
      = { exit := 1, errorReported := true, actualFetchAttempts := 0
        , actualsWritten := none, resultWritten := none, summaryWritten := none } :=
  comparison_missing_forecast_fatal sqrtZero envNoForecast rfl

/-- C10: the actual lookup dictionary keeps the last record under a
duplicated region name, so every matching forecast record is compared
against the last such actual; duplicated forecast records each contribute
their own comparison entry and their own diff samples, and a matched
forecast record with both sides present grows the diff list of the
metric (hence sample_size) by one. -/
theorem compute_accuracy_duplicate_regions (sqrtQ : ℚ → ℚ) :
    (∀ (acts₁ acts₂ acts₃ : List ObsRecord) (fc act₁ act₂ : ObsRecord),
        act₁.region = fc.region → act₂.region = fc.region →
        (∀ b ∈ acts₃, b.region ≠ fc.region) →
        actualByName (acts₁ ++ act₁ :: acts₂ ++ act₂ :: acts₃) fc.region = some act₂)
      ∧ (∀ (fcs fcs₂ acts : List ObsRecord),
          (compute_accuracy sqrtQ (fcs ++ fcs₂) acts).comparisons
              = (compute_accuracy sqrtQ fcs acts).comparisons
                ++ (compute_accuracy sqrtQ fcs₂ acts).comparisons
            ∧ ∀ m : Metric, metricDiffs (fcs ++ fcs₂) acts m
                = metricDiffs fcs acts m ++ metricDiffs fcs₂ acts m)
      ∧ (∀ (fcs acts : List ObsRecord) (fc act : ObsRecord) (m : Metric) (f a : ℚ),
          actualByName acts fc.region = some act → fc.val m = some f → act.val m = some a →
          (metricDiffs (fcs ++ [fc]) acts m).length = (metricDiffs fcs acts m).length + 1) := by
  refine ⟨?_, ?_, ?_⟩
  · intro acts₁ acts₂ acts₃ fc act₁ act₂ h₁ h₂ h₃
    rw [actualByName_eq_getLast]
    have h3nil : acts₃.filter (fun a => a.region = fc.region) = [] :=
      List.filter_eq_nil_iff.mpr fun b hb => by simp [h₃ b hb]
    simp only [List.filter_append, List.filter_cons, h₁, h₂, decide_eq_true_eq, if_pos, h3nil]
    exact List.getLast?_concat _
  · intro fcs fcs₂ acts
    constructor
    · show regionComparisons (fcs ++ fcs₂) acts
          = regionComparisons fcs acts ++ regionComparisons fcs₂ acts
      simp [regionComparisons, matchedPairs, List.filterMap_append, List.map_append]
    · intro m
      simp [metricDiffs, matchedPairs, List.filterMap_append]
  · intro fcs acts fc act m f a hact hf ha
    have hsingle : metricDiffs (fcs ++ [fc]) acts m
        = metricDiffs fcs acts m ++ [roundTo 2 |f - a|] := by
      simp [metricDiffs, matchedPairs, List.filterMap_append, List.filterMap_cons, hact,
        diffVal, hf, ha]
    rw [hsingle]
    simp

theorem compute_accuracy_duplicate_regions_witness :
    actualByName ([] ++ wDupAct1 :: [] ++ wDupAct2 :: []) wFcSydney.region = some wDupAct2
      ∧ (metricDiffs ([wFcSydney] ++ [wFcSydney]) [wActSydney] .high_temp).length
          = (metricDiffs [wFcSydney] [wActSydney] .high_temp).length + 1 :=
  ⟨(compute_accuracy_duplicate_regions sqrtZero).1 [] [] [] wFcSydney wDupAct1 wDupAct2
      rfl rfl (fun b hb => absurd hb (List.not_mem_nil b)),
    (compute_accuracy_duplicate_regions sqrtZero).2.2 [wFcSydney] [wActSydney] wFcSydney
      wActSydney .high_temp 20 (21.3 : ℚ)
      (by simp [actualByName, wFcSydney, wActSydney]) rfl rfl⟩
